import Mathlib

/-!
Verification of the gesture-interaction classifier and scene animator of the
GestureInteraction repository.

The first-party logic of the repository lives in three places:

* `HandTracker` (`isHandOpen`, `predictWebcam`, `updateHandState`): the
  per-frame gesture classifier.  Each frame it receives a list of detected
  hands (each hand is 21 landmarks with normalized coordinates), carries a
  single latch bit `isZoomActiveRef` between frames, and overwrites a shared
  `HandState` record.
* `types.ts`: the `HandState` record, `INITIAL_HAND_STATE` and
  `PINCH_THRESHOLD`.
* `SceneContent`'s `useFrame` callback: the animator that maps the shared
  `HandState` to the 3D group's rotation and scale with exponential smoothing.

We embed the numeric computations over `ℝ`, with `Real.sqrt` standing for
`Math.sqrt` / `Math.hypot`.  Predicates computed from square roots are `Prop`s;
the source's boolean tests translate to classically-decided `if`s.
-/

open Classical

/-- A single hand landmark: normalized 3D position as produced by the
hand-landmark model (`x`, `y` in `[0,1]`, `z` a relative depth). -/
structure Pt where
  x : ℝ
  y : ℝ
  z : ℝ

/-- A detected hand: 21 landmarks indexed by anatomical id
(wrist = 0, thumb tip = 4, index tip = 8, ...). -/
def Hand : Type := Fin 21 → Pt

/-- 2D distance, as in `Math.hypot(ax - bx, ay - by)` /
`Math.sqrt(dx*dx + dy*dy)`. -/
noncomputable def dist2 (a b : Pt) : ℝ :=
  Real.sqrt ((a.x - b.x) ^ 2 + (a.y - b.y) ^ 2)

/-- 3D distance, as in `Math.sqrt(dx*dx + dy*dy + dz*dz)`. -/
noncomputable def dist3 (a b : Pt) : ℝ :=
  Real.sqrt ((a.x - b.x) ^ 2 + (a.y - b.y) ^ 2 + (a.z - b.z) ^ 2)

/-- Interaction mode: `'IDLE' | 'ZOOM' | 'ROTATE'` from `types.ts`. -/
inductive Mode where
  | IDLE : Mode
  | ZOOM : Mode
  | ROTATE : Mode
deriving DecidableEq

/-- The `HandState` interface of `types.ts`.  `isPinched` is a proposition
because in the source it is the result of a real-number comparison. -/
structure HandState where
  pinchDistance : ℝ
  handDistance : ℝ
  isPinched : Prop
  position : ℝ × ℝ
  isDetected : Bool
  mode : Mode

/-- `INITIAL_HAND_STATE` from `types.ts`. -/
def INITIAL_HAND_STATE : HandState :=
  { pinchDistance := 1
    handDistance := 0
    isPinched := False
    position := (0, 0)
    isDetected := false
    mode := Mode.IDLE }

/-- `PINCH_THRESHOLD = 0.05` from `types.ts`. -/
noncomputable def PINCH_THRESHOLD : ℝ := 0.05

/-- One finger of `isHandOpen`'s loop body: the finger whose tip is landmark
`tip` and whose joint proximal to the tip is `pip` counts as extended when the
2D wrist-to-tip distance strictly exceeds the 2D wrist-to-pip distance. -/
noncomputable def fingerExtended (lm : Hand) (tip pip : Fin 21) : Prop :=
  dist2 (lm tip) (lm 0) > dist2 (lm pip) (lm 0)

/-- The `extendedCount` accumulated by `isHandOpen`'s loop over
tips `[8, 12, 16, 20]` and pips `[6, 10, 14, 18]`. -/
noncomputable def extendedCount (lm : Hand) : ℕ :=
  (if fingerExtended lm 8 6 then 1 else 0) +
  (if fingerExtended lm 12 10 then 1 else 0) +
  (if fingerExtended lm 16 14 then 1 else 0) +
  (if fingerExtended lm 20 18 then 1 else 0)

/-- `isHandOpen` from `HandTracker`: a hand is open when at least 3 of the
4 checked fingers are extended. -/
def isHandOpen (lm : Hand) : Prop := 3 ≤ extendedCount lm

/-- `updateHandState` from `HandTracker`: builds the new `HandState` record
from the detected hands and the mode chosen by `predictWebcam`.  The ZOOM
branch requires exactly two hands; otherwise, when at least one hand is
present, the single-hand formulas are applied to hand 0. -/
noncomputable def updateHandState (hands : List Hand) (detectedMode : Mode) :
    HandState :=
  match hands, detectedMode with
  | [hand1, hand2], Mode.ZOOM =>
      let h1 := hand1 0
      let h2 := hand2 0
      let handDistance := Real.sqrt ((h1.x - h2.x) ^ 2 + (h1.y - h2.y) ^ 2)
      let cx := (h1.x + h2.x) / 2
      let cy := (h1.y + h2.y) / 2
      { pinchDistance := 1
        handDistance := handDistance
        isPinched := False
        position := ((0.5 - cx) * 2, (cy - 0.5) * 2)
        isDetected := true
        mode := Mode.ZOOM }
  | hand1 :: _, m =>
      let thumb := hand1 4
      let index := hand1 8
      let wrist := hand1 0
      let pinchDistance :=
        Real.sqrt ((thumb.x - index.x) ^ 2 + (thumb.y - index.y) ^ 2 +
          (thumb.z - index.z) ^ 2)
      let rawX := (thumb.x + wrist.x) / 2
      let rawY := (thumb.y + wrist.y) / 2
      { pinchDistance := pinchDistance
        handDistance := 0
        isPinched := pinchDistance < PINCH_THRESHOLD
        position := ((0.5 - rawX) * 2, (rawY - 0.5) * 2)
        isDetected := true
        mode := m }
  | [], m =>
      { pinchDistance := 1
        handDistance := 0
        isPinched := False
        position := (0, 0)
        isDetected := true
        mode := m }

/-- The interaction part of `predictWebcam` from `HandTracker`: one detection
frame.  Input: the detected hands and the carried latch bit
(`isZoomActiveRef`); output: the updated latch bit and the `HandState`
written to the shared ref. -/
noncomputable def step (hands : List Hand) (zoomActive : Bool) :
    Bool × HandState :=
  match hands with
  | [] =>
      -- zero hands: reset the latch and the shared state
      (false, INITIAL_HAND_STATE)
  | [hand1, hand2] =>
      -- two hands: latch hysteresis, then ZOOM or waiting-IDLE
      let h1 := hand1 0
      let h2 := hand2 0
      let dist := Real.sqrt ((h1.x - h2.x) ^ 2 + (h1.y - h2.y) ^ 2)
      let bothHandsOpen := isHandOpen hand1 ∧ isHandOpen hand2
      let bothHandsClosed := ¬ isHandOpen hand1 ∧ ¬ isHandOpen hand2
      let newActive : Bool :=
        if zoomActive then
          (if bothHandsOpen then false else true)
        else
          (if dist < 0.2 ∧ bothHandsClosed then true else false)
      (newActive,
        updateHandState hands (if newActive then Mode.ZOOM else Mode.IDLE))
  | hand1 :: _ =>
      -- one hand (or any non-2 positive count): latch cleared, pinch test
      let thumb := hand1 4
      let index := hand1 8
      let currentDist :=
        Real.sqrt ((thumb.x - index.x) ^ 2 + (thumb.y - index.y) ^ 2 +
          (thumb.z - index.z) ^ 2)
      let isPinched := currentDist < PINCH_THRESHOLD
      (false,
        updateHandState hands (if isPinched then Mode.ROTATE else Mode.IDLE))

/-- The position-mapping convention: raw normalized frame coordinates
`(rx, ry)` in `[0,1]` are mapped to `((0.5 - rx) * 2, (ry - 0.5) * 2)`. -/
def posMap (rx ry : ℝ) : ℝ × ℝ := ((0.5 - rx) * 2, (ry - 0.5) * 2)

/-- `THREE.MathUtils.lerp`. -/
def lerp (a b t : ℝ) : ℝ := a + (b - a) * t

/-- `Math.max(0, Math.min(1, (handDistance - 0.2) * 2))` from the ZOOM branch
of `SceneContent`'s `useFrame`. -/
noncomputable def normalizedDist (handDistance : ℝ) : ℝ :=
  max 0 (min 1 ((handDistance - 0.2) * 2))

/-- `targetScale = 0.8 + normalizedDist * 3.2` from the same branch. -/
noncomputable def targetScale (handDistance : ℝ) : ℝ :=
  0.8 + normalizedDist handDistance * 3.2

/-- The state touched by the main-group part of `SceneContent`'s `useFrame`
callback: the smoothing refs (`currentRotation`, `currentScale`) and the
group's applied rotation and scale. -/
structure AnimState where
  curRotX : ℝ
  curRotY : ℝ
  curScale : ℝ
  rotX : ℝ
  rotY : ℝ
  scale : ℝ

/-- The main-group logic of `SceneContent`'s `useFrame` for one rendered
frame: idle drift when no hand is detected, smoothing-ref updates in ZOOM and
ROTATE modes, then application of scale and rotation to the group
(`lerpFactor = 0.1`). -/
noncomputable def animStep (hand : HandState) (time delta : ℝ)
    (s : AnimState) : AnimState :=
  -- default drift if no hand detected
  let s1 := if hand.isDetected = false then
      { s with
        rotY := s.rotY + delta * 0.05
        rotX := Real.sin (time * 0.1) * 0.05 }
    else s
  -- ZOOM: smooth current scale toward the target scale
  let s2 := if hand.isDetected = true ∧ hand.mode = Mode.ZOOM then
      { s1 with curScale := lerp s1.curScale (targetScale hand.handDistance) 0.1 }
    else s1
  -- ROTATE: smooth current rotation toward position * 2.5
  let s3 := if hand.isDetected = true ∧ hand.mode = Mode.ROTATE then
      { s2 with
        curRotX := lerp s2.curRotX (hand.position.2 * 2.5) 0.1
        curRotY := lerp s2.curRotY (hand.position.1 * 2.5) 0.1 }
    else s2
  -- apply interaction transforms to the main group
  let s4 := { s3 with scale := s3.curScale }
  if hand.isDetected = true ∧ hand.mode = Mode.ROTATE then
    { s4 with rotX := s4.curRotX, rotY := s4.curRotY }
  else if hand.isDetected = true then
    { s4 with rotX := lerp s4.rotX 0 0.05 }
  else s4

/-! ## Unfolding lemmas for the classifier step -/

lemma step_nil (a : Bool) : step [] a = (false, INITIAL_HAND_STATE) := rfl

lemma step_single (h : Hand) (a : Bool) :
    step [h] a =
      (false, updateHandState [h]
        (if dist3 (h 4) (h 8) < PINCH_THRESHOLD then Mode.ROTATE
         else Mode.IDLE)) := rfl

lemma step_pair_fst (h1 h2 : Hand) (a : Bool) :
    (step [h1, h2] a).1 =
      (if a then (if isHandOpen h1 ∧ isHandOpen h2 then false else true)
       else (if dist2 (h1 0) (h2 0) < 0.2 ∧
               (¬ isHandOpen h1 ∧ ¬ isHandOpen h2) then true else false)) := rfl

lemma step_pair_snd (h1 h2 : Hand) (a : Bool) :
    (step [h1, h2] a).2 =
      updateHandState [h1, h2]
        (if (step [h1, h2] a).1 then Mode.ZOOM else Mode.IDLE) := rfl

lemma updateHandState_single (h : Hand) (m : Mode) :
    updateHandState [h] m =
      { pinchDistance := dist3 (h 4) (h 8)
        handDistance := 0
        isPinched := dist3 (h 4) (h 8) < PINCH_THRESHOLD
        position := posMap (((h 4).x + (h 0).x) / 2) (((h 4).y + (h 0).y) / 2)
        isDetected := true
        mode := m } := rfl

lemma updateHandState_pair_zoom (h1 h2 : Hand) :
    updateHandState [h1, h2] Mode.ZOOM =
      { pinchDistance := 1
        handDistance := dist2 (h1 0) (h2 0)
        isPinched := False
        position := posMap (((h1 0).x + (h2 0).x) / 2)
          (((h1 0).y + (h2 0).y) / 2)
        isDetected := true
        mode := Mode.ZOOM } := rfl

lemma updateHandState_pair_idle (h1 h2 : Hand) :
    updateHandState [h1, h2] Mode.IDLE =
      { pinchDistance := dist3 (h1 4) (h1 8)
        handDistance := 0
        isPinched := dist3 (h1 4) (h1 8) < PINCH_THRESHOLD
        position := posMap (((h1 4).x + (h1 0).x) / 2)
          (((h1 4).y + (h1 0).y) / 2)
        isDetected := true
        mode := Mode.IDLE } := rfl

/-! ## Concrete hands used as witnesses -/

/-- A degenerate hand with every landmark at the frame center: no finger is
extended (every distance is 0), so the hand is closed. -/
noncomputable def flatHand : Hand := fun _ => ⟨0.5, 0.5, 0⟩

lemma flatHand_not_open : ¬ isHandOpen flatHand := by
  have hfe : ∀ tip pip : Fin 21, ¬ fingerExtended flatHand tip pip := by
    intro tip pip
    simp [fingerExtended, flatHand]
  simp [isHandOpen, extendedCount, hfe 8 6, hfe 12 10, hfe 16 14, hfe 20 18]

lemma flatHand_wrist_dist : dist2 (flatHand 0) (flatHand 0) < 0.2 := by
  simp [dist2, flatHand]
  norm_num

/-! ## Claims -/

/-- Claim C1: for a two-hand frame, the latch turns off→on iff the 2D
inter-wrist distance is < 0.2 and both hands are closed; it turns on→off iff
both hands are open.  (All other two-hand frames keep the prior latch value,
which is exactly what the two iffs say.) -/
theorem latch_transition (h1 h2 : Hand) (a : Bool) :
    (a = false →
      ((step [h1, h2] a).1 = true ↔
        dist2 (h1 0) (h2 0) < 0.2 ∧ ¬ isHandOpen h1 ∧ ¬ isHandOpen h2)) ∧
    (a = true →
      ((step [h1, h2] a).1 = false ↔ isHandOpen h1 ∧ isHandOpen h2)) := by
  constructor
  · rintro rfl
    rw [step_pair_fst]
    simp only [Bool.false_eq_true, if_false]
    split_ifs with hc
    · simp only [true_iff]
      exact ⟨hc.1, hc.2.1, hc.2.2⟩
    · simp only [Bool.false_eq_true, false_iff]
      intro ⟨hd, ho1, ho2⟩
      exact hc ⟨hd, ho1, ho2⟩
  · rintro rfl
    rw [step_pair_fst]
    simp only [if_true]
    split_ifs with hc
    · simp only [true_iff]
      exact hc
    · simp only [Bool.true_eq_false, false_iff]
      exact hc

/-- Witness for C1: two coincident closed hands arm the latch from off. -/
theorem latch_transition_witness :
    (step [flatHand, flatHand] false).1 = true :=
  ((latch_transition flatHand flatHand false).1 rfl).mpr
    ⟨flatHand_wrist_dist, flatHand_not_open, flatHand_not_open⟩

/-- Claim C4: a one-hand frame always leaves the latch off, whatever its
prior value; in particular a one-hand frame immediately following any
two-hand frame clears the latch. -/
theorem oneHand_clears_latch (h : Hand) (a : Bool) :
    (step [h] a).1 = false ∧
    ∀ (h1 h2 : Hand) (b : Bool),
      (step [h] ((step [h1, h2] b).1)).1 = false :=
  ⟨rfl, fun _ _ _ => rfl⟩

/-- Claim C5: a zero-hand frame resets the latch and emits the neutral
default record, whose fields are the documented defaults. -/
theorem zeroHands_resets (a : Bool) :
    step [] a = (false, INITIAL_HAND_STATE) ∧
    INITIAL_HAND_STATE.isDetected = false ∧
    INITIAL_HAND_STATE.mode = Mode.IDLE ∧
    INITIAL_HAND_STATE.pinchDistance = 1 ∧
    INITIAL_HAND_STATE.handDistance = 0 ∧
    ¬ INITIAL_HAND_STATE.isPinched ∧
    INITIAL_HAND_STATE.position = (0, 0) :=
  ⟨rfl, rfl, rfl, rfl, rfl, fun f => f, rfl⟩

/-- Claim C8: the classification of a single-hand frame does not depend on
the carried latch bit, so feeding the identical single-hand keypoint set on
two consecutive frames yields the identical `HandState` both times. -/
theorem oneHand_idempotent (h : Hand) (a b : Bool) :
    step [h] a = step [h] b ∧
    step [h] ((step [h] a).1) = step [h] a :=
  ⟨rfl, rfl⟩

/-- Claim C3: for a single-hand frame, `isPinched` holds iff the 3D
thumb-index distance is strictly below 0.05; distance exactly 0.05 is not a
pinch; and the emitted mode is ROTATE exactly when pinched, IDLE otherwise. -/
theorem pinch_classification (h : Hand) (a : Bool) :
    ((step [h] a).2.isPinched ↔ dist3 (h 4) (h 8) < 0.05) ∧
    (dist3 (h 4) (h 8) = 0.05 → ¬ (step [h] a).2.isPinched) ∧
    ((step [h] a).2.mode = Mode.ROTATE ↔ dist3 (h 4) (h 8) < 0.05) ∧
    ((step [h] a).2.mode ≠ Mode.ROTATE → (step [h] a).2.mode = Mode.IDLE) := by
  rw [step_single]
  refine ⟨?_, ?_, ?_, ?_⟩
  · rw [updateHandState_single]
    exact Iff.rfl
  · intro heq hp
    rw [updateHandState_single] at hp
    simp only [PINCH_THRESHOLD] at hp
    rw [heq] at hp
    exact absurd hp (by norm_num)
  · rw [updateHandState_single]
    show (if dist3 (h 4) (h 8) < PINCH_THRESHOLD then Mode.ROTATE
          else Mode.IDLE) = Mode.ROTATE ↔ _
    split_ifs with hp
    · simpa [PINCH_THRESHOLD] using hp
    · simp only [PINCH_THRESHOLD] at hp
      simpa using hp
  · rw [updateHandState_single]
    show (if dist3 (h 4) (h 8) < PINCH_THRESHOLD then Mode.ROTATE
          else Mode.IDLE) ≠ Mode.ROTATE →
         (if dist3 (h 4) (h 8) < PINCH_THRESHOLD then Mode.ROTATE
          else Mode.IDLE) = Mode.IDLE
    split_ifs with hp
    · intro hne
      exact absurd rfl hne
    · intro _
      rfl

/-- A hand whose thumb tip sits exactly 0.05 from its index tip: the pinch
boundary case. -/
noncomputable def boundaryHand : Hand := fun i =>
  if i.val = 4 then ⟨0.55, 0.5, 0⟩ else ⟨0.5, 0.5, 0⟩

lemma boundaryHand_dist : dist3 (boundaryHand 4) (boundaryHand 8) = 0.05 := by
  have e4 : boundaryHand 4 = ⟨0.55, 0.5, 0⟩ := by
    unfold boundaryHand
    rw [if_pos (by decide)]
  have e8 : boundaryHand 8 = ⟨0.5, 0.5, 0⟩ := by
    unfold boundaryHand
    rw [if_neg (by decide)]
  rw [e4, e8]
  unfold dist3
  rw [show ((0.55 : ℝ) - 0.5) ^ 2 + ((0.5 : ℝ) - 0.5) ^ 2 +
        ((0 : ℝ) - 0) ^ 2 = 0.05 ^ 2 by norm_num]
  exact Real.sqrt_sq (by norm_num)

/-- Witness for C3: at the boundary distance 0.05 the hand is not pinched
and the mode is IDLE. -/
theorem pinch_classification_witness :
    ¬ (step [boundaryHand] false).2.isPinched ∧
    (step [boundaryHand] false).2.mode = Mode.IDLE := by
  have h := pinch_classification boundaryHand false
  refine ⟨h.2.1 boundaryHand_dist, h.2.2.2 ?_⟩
  intro hm
  have := h.2.2.1.mp hm
  rw [boundaryHand_dist] at this
  exact absurd this (by norm_num)

/-- Claim C6: the position mapping sends raw `(0.5, 0.5)` to `(0, 0)`,
`(0, 0)` to `(1, -1)` and `(1, 1)` to `(-1, 1)`; the two-hand ZOOM record's
position is the mapped wrist midpoint, and the one-hand record's position is
the mapped thumb-wrist midpoint. -/
theorem position_mapping :
    posMap 0.5 0.5 = (0, 0) ∧ posMap 0 0 = (1, -1) ∧ posMap 1 1 = (-1, 1) ∧
    (∀ h1 h2 : Hand, (updateHandState [h1, h2] Mode.ZOOM).position =
      posMap (((h1 0).x + (h2 0).x) / 2) (((h1 0).y + (h2 0).y) / 2)) ∧
    (∀ (h : Hand) (m : Mode), (updateHandState [h] m).position =
      posMap (((h 4).x + (h 0).x) / 2) (((h 4).y + (h 0).y) / 2)) := by
  refine ⟨?_, ?_, ?_, fun h1 h2 => rfl, fun h m => rfl⟩
  · simp only [posMap, Prod.mk.injEq]
    norm_num
  · simp only [posMap, Prod.mk.injEq]
    norm_num
  · simp only [posMap, Prod.mk.injEq]
    norm_num

/-- Claim C7: a finger counts as extended iff the 2D wrist-to-tip distance
strictly exceeds the 2D wrist-to-pip distance, and the hand is open iff at
least 3 of the 4 checked fingers (index, middle, ring, pinky) are extended,
i.e. some 3 of the 4 extension tests hold simultaneously. -/
theorem hand_open_characterization (lm : Hand) :
    (∀ tip pip : Fin 21, fingerExtended lm tip pip ↔
      dist2 (lm tip) (lm 0) > dist2 (lm pip) (lm 0)) ∧
    (isHandOpen lm ↔
      ((fingerExtended lm 8 6 ∧ fingerExtended lm 12 10 ∧
          fingerExtended lm 16 14) ∨
       (fingerExtended lm 8 6 ∧ fingerExtended lm 12 10 ∧
          fingerExtended lm 20 18) ∨
       (fingerExtended lm 8 6 ∧ fingerExtended lm 16 14 ∧
          fingerExtended lm 20 18) ∨
       (fingerExtended lm 12 10 ∧ fingerExtended lm 16 14 ∧
          fingerExtended lm 20 18))) := by
  refine ⟨fun tip pip => Iff.rfl, ?_⟩
  by_cases e1 : fingerExtended lm 8 6 <;>
    by_cases e2 : fingerExtended lm 12 10 <;>
      by_cases e3 : fingerExtended lm 16 14 <;>
        by_cases e4 : fingerExtended lm 20 18 <;>
          simp [isHandOpen, extendedCount, e1, e2, e3, e4]

/-- Counterexample for C2: the affine map of `[0.2, 0.8]` onto `[0.8, 4.0]`
would give scale 2.4 at `handDistance = 0.5`, but the code gives 2.72 —
`clamp01((hd - 0.2) * 2)` already saturates at `hd = 0.7`, so the mapping is
not linear on all of `[0.2, 0.8]`. -/
theorem targetScale_not_affine_on_claimed_range :
    targetScale 0.5 ≠ 0.8 + (0.5 - 0.2) * ((4 - 0.8) / (0.8 - 0.2)) := by
  unfold targetScale normalizedDist
  rw [min_eq_right (by norm_num), max_eq_right (by norm_num)]
  norm_num

/-- Claim C2 (amended): in ZOOM mode the target scale is
`0.8 + clamp01((handDistance - 0.2) * 2) * 3.2`; this is constant 0.8 for
`handDistance ≤ 0.2`, affine with slope 6.4 on `[0.2, 0.7]` (mapping
`[0.2, 0.7]` onto `[0.8, 4.0]`), and constant 4.0 for `handDistance ≥ 0.7`;
in particular `0.2 ↦ 0.8`, `0.8 ↦ 4.0`, `0.05 ↦ 0.8` and `1.0 ↦ 4.0`. -/
theorem targetScale_piecewise (hd : ℝ) :
    targetScale hd = 0.8 + max 0 (min 1 ((hd - 0.2) * 2)) * 3.2 ∧
    (hd ≤ 0.2 → targetScale hd = 0.8) ∧
    (0.2 ≤ hd → hd ≤ 0.7 → targetScale hd = 0.8 + (hd - 0.2) * 6.4) ∧
    (0.7 ≤ hd → targetScale hd = 4) ∧
    targetScale 0.2 = 0.8 ∧ targetScale 0.8 = 4 ∧
    targetScale 0.05 = 0.8 ∧ targetScale 1 = 4 := by
  refine ⟨rfl, ?_, ?_, ?_, ?_, ?_, ?_, ?_⟩
  · intro hle
    unfold targetScale normalizedDist
    rw [min_eq_right (by linarith), max_eq_left (by linarith)]
    norm_num
  · intro hlo hhi
    unfold targetScale normalizedDist
    rw [min_eq_right (by linarith), max_eq_right (by linarith)]
    ring
  · intro hge
    unfold targetScale normalizedDist
    rw [min_eq_left (by linarith), max_eq_right (by norm_num)]
    norm_num
  · unfold targetScale normalizedDist
    rw [min_eq_right (by norm_num), max_eq_right (by norm_num)]
    norm_num
  · unfold targetScale normalizedDist
    rw [min_eq_left (by norm_num), max_eq_right (by norm_num)]
    norm_num
  · unfold targetScale normalizedDist
    rw [min_eq_right (by norm_num), max_eq_left (by norm_num)]
    norm_num
  · unfold targetScale normalizedDist
    rw [min_eq_left (by norm_num), max_eq_right (by norm_num)]
    norm_num

/-- Witness for the amended C2: the three pieces evaluated inside their
intervals. -/
theorem targetScale_piecewise_witness :
    targetScale 0.5 = 0.8 + (0.5 - 0.2) * 6.4 ∧
    targetScale 0.1 = 0.8 ∧ targetScale 0.9 = 4 :=
  ⟨(targetScale_piecewise 0.5).2.2.1 (by norm_num) (by norm_num),
   (targetScale_piecewise 0.1).2.1 (by norm_num),
   (targetScale_piecewise 0.9).2.2.2.1 (by norm_num)⟩

/-- Claim C9: on an animator frame with a detected hand whose mode is not
ROTATE, the group pitch is lerped one step toward 0 with factor 0.05 and the
yaw is left unchanged. -/
theorem nonRotate_relaxes_pitch (hand : HandState) (t dt : ℝ) (s : AnimState)
    (hdet : hand.isDetected = true) (hrot : hand.mode ≠ Mode.ROTATE) :
    (animStep hand t dt s).rotX = lerp s.rotX 0 0.05 ∧
    (animStep hand t dt s).rotY = s.rotY := by
  by_cases hz : hand.mode = Mode.ZOOM <;>
    simp [animStep, hdet, hrot, hz]

/-- A `HandState` as produced during two-handed zooming. -/
noncomputable def zoomHandState : HandState :=
  { pinchDistance := 1
    handDistance := 0.5
    isPinched := False
    position := (0, 0)
    isDetected := true
    mode := Mode.ZOOM }

/-- An animator state with nonzero pitch and yaw. -/
noncomputable def tiltedAnimState : AnimState :=
  { curRotX := 0
    curRotY := 0
    curScale := 1
    rotX := 1
    rotY := 2
    scale := 1 }

/-- Witness for C9: a zooming frame relaxes pitch from 1 to 0.95 and keeps
yaw at 2. -/
theorem nonRotate_relaxes_pitch_witness :
    (animStep zoomHandState 0 0 tiltedAnimState).rotX = 0.95 ∧
    (animStep zoomHandState 0 0 tiltedAnimState).rotY = 2 := by
  have h := nonRotate_relaxes_pitch zoomHandState 0 0 tiltedAnimState rfl
    (by intro hm; exact Mode.noConfusion hm)
  refine ⟨?_, ?_⟩
  · rw [h.1]
    show lerp tiltedAnimState.rotX 0 0.05 = 0.95
    unfold lerp tiltedAnimState
    norm_num
  · rw [h.2]
    rfl

/-- Claim C10: a two-hand frame that leaves the latch off emits mode IDLE and
`handDistance = 0`, with the remaining fields computed by the single-hand
formulas on hand 0: `pinchDistance` is hand 0's 3D thumb-index distance,
`isPinched` compares it with 0.05, the position is hand 0's mapped
thumb-wrist midpoint, and the hand counts as detected. -/
theorem twoHands_latchOff_state (h1 h2 : Hand) (a : Bool)
    (hoff : (step [h1, h2] a).1 = false) :
    (step [h1, h2] a).2.mode = Mode.IDLE ∧
    (step [h1, h2] a).2.handDistance = 0 ∧
    (step [h1, h2] a).2.pinchDistance = dist3 (h1 4) (h1 8) ∧
    ((step [h1, h2] a).2.isPinched ↔ dist3 (h1 4) (h1 8) < 0.05) ∧
    (step [h1, h2] a).2.position =
      posMap (((h1 4).x + (h1 0).x) / 2) (((h1 4).y + (h1 0).y) / 2) ∧
    (step [h1, h2] a).2.isDetected = true := by
  rw [step_pair_snd, hoff]
  rw [show (if false then Mode.ZOOM else Mode.IDLE) = Mode.IDLE from rfl]
  rw [updateHandState_pair_idle]
  exact ⟨rfl, rfl, rfl, Iff.rfl, rfl, rfl⟩

/-- An open hand whose thumb tip nearly touches its index tip: wrist at the
center, pip joints 0.1 away, fingertips 0.2 away, thumb tip 0.01 from the
index tip. -/
noncomputable def openPinchHand : Hand := fun i =>
  if i.val = 8 ∨ i.val = 12 ∨ i.val = 16 ∨ i.val = 20 then ⟨0.7, 0.5, 0⟩
  else if i.val = 6 ∨ i.val = 10 ∨ i.val = 14 ∨ i.val = 18 then ⟨0.6, 0.5, 0⟩
  else if i.val = 4 then ⟨0.69, 0.5, 0⟩
  else ⟨0.5, 0.5, 0⟩

lemma openPinchHand_tip :
    ∀ i : Fin 21, i.val = 8 ∨ i.val = 12 ∨ i.val = 16 ∨ i.val = 20 →
      openPinchHand i = ⟨0.7, 0.5, 0⟩ := by
  intro i hi
  unfold openPinchHand
  rw [if_pos hi]

lemma openPinchHand_pip :
    ∀ i : Fin 21, i.val = 6 ∨ i.val = 10 ∨ i.val = 14 ∨ i.val = 18 →
      openPinchHand i = ⟨0.6, 0.5, 0⟩ := by
  intro i hi
  unfold openPinchHand
  rw [if_neg (by omega), if_pos hi]

lemma openPinchHand_wrist : openPinchHand 0 = ⟨0.5, 0.5, 0⟩ := by
  unfold openPinchHand
  rw [if_neg (by decide), if_neg (by decide), if_neg (by decide)]

lemma openPinchHand_thumb : openPinchHand 4 = ⟨0.69, 0.5, 0⟩ := by
  unfold openPinchHand
  rw [if_neg (by decide), if_neg (by decide), if_pos (by decide)]

lemma openPinchHand_open : isHandOpen openPinchHand := by
  have hext : ∀ tip pip : Fin 21,
      (tip.val = 8 ∨ tip.val = 12 ∨ tip.val = 16 ∨ tip.val = 20) →
      (pip.val = 6 ∨ pip.val = 10 ∨ pip.val = 14 ∨ pip.val = 18) →
      fingerExtended openPinchHand tip pip := by
    intro tip pip htip hpip
    unfold fingerExtended
    rw [openPinchHand_tip tip htip, openPinchHand_pip pip hpip,
      openPinchHand_wrist]
    unfold dist2
    exact Real.sqrt_lt_sqrt (by norm_num) (by norm_num)
  have h1 := hext 8 6 (by decide) (by decide)
  have h2 := hext 12 10 (by decide) (by decide)
  have h3 := hext 16 14 (by decide) (by decide)
  have h4 := hext 20 18 (by decide) (by decide)
  simp [isHandOpen, extendedCount, h1, h2, h3, h4]

lemma openPinchHand_pinched :
    dist3 (openPinchHand 4) (openPinchHand 8) < 0.05 := by
  rw [openPinchHand_thumb, openPinchHand_tip 8 (by decide)]
  unfold dist3
  rw [Real.sqrt_lt' (by norm_num)]
  norm_num

lemma openPinchHand_pair_latchOff :
    (step [openPinchHand, openPinchHand] false).1 = false := by
  rw [step_pair_fst]
  rw [if_neg (by simp : ¬ (false : Bool) = true)]
  rw [if_neg]
  rintro ⟨-, hno, -⟩
  exact hno openPinchHand_open

/-- Witness for C10: two open hands with hand 0 pinched leave the latch off
and emit an IDLE record in which `isPinched` nevertheless holds. -/
theorem twoHands_latchOff_state_witness :
    (step [openPinchHand, openPinchHand] false).1 = false ∧
    (step [openPinchHand, openPinchHand] false).2.mode = Mode.IDLE ∧
    (step [openPinchHand, openPinchHand] false).2.handDistance = 0 ∧
    (step [openPinchHand, openPinchHand] false).2.isPinched := by
  have h := twoHands_latchOff_state openPinchHand openPinchHand false
    openPinchHand_pair_latchOff
  exact ⟨openPinchHand_pair_latchOff, h.1, h.2.1,
    h.2.2.2.1.mpr openPinchHand_pinched⟩
